import Mathlib

/-!
Verification development for the Gear VR controller bridge (Rust).

Shallow embedding of the core numeric pipeline:
* `protocol` — the BLE packet decoder (`src/infrastructure/bluetooth/protocol.rs`),
  modelled over `List ℕ` byte buffers with exact rational arithmetic in place of
  `f32`/`f64` (all float constants in the source are read as the rationals they
  denote; IEEE rounding, infinities and NaN lie outside the real-valued model).
* machine-integer helpers follow the release-build (wrapping) semantics of the
  Rust integer operations they embed.
-/

namespace GearVR

/-- Little-endian unsigned 16-bit word from two bytes (`u16::from_le_bytes`). -/
def u16le (lo hi : ℕ) : ℕ := lo + 256 * hi

/-- Little-endian unsigned 32-bit word from four bytes (`u32::from_le_bytes`). -/
def u32le (b0 b1 b2 b3 : ℕ) : ℕ := b0 + 256 * b1 + 65536 * b2 + 16777216 * b3

/-- Reinterpret an unsigned 16-bit value as two's-complement signed. -/
def toSigned16 (n : ℕ) : ℤ := if n < 32768 then (n : ℤ) else (n : ℤ) - 65536

/-- Little-endian signed 16-bit word from two bytes (`i16::from_le_bytes`). -/
def i16le (lo hi : ℕ) : ℤ := toSigned16 (u16le lo hi)

/-- Absolute value with the release-build semantics of `i16::abs`: the overflow
case `i16::MIN` wraps back to `i16::MIN` (with overflow checks enabled it would
panic instead; see the notes on claim C2). -/
def wrapAbs16 (z : ℤ) : ℤ := if z = -32768 then -32768 else |z|

/-- Value of an IEEE-754 binary32 bit pattern as an exact rational
(`f32::from_le_bytes` composed with reading the float's value). Bit patterns
with exponent 255 (infinities and NaN) have no rational value and are mapped to
0; no claim in this development touches them. -/
def f32_from_bits (n : ℕ) : ℚ :=
  let sign : ℚ := if n / 2 ^ 31 % 2 = 1 then -1 else 1
  let e : ℕ := n / 2 ^ 23 % 256
  let frac : ℕ := n % 2 ^ 23
  if e = 0 then sign * (frac : ℚ) * (1 / 2 ^ 149)
  else if e = 255 then 0
  else sign * ((2 ^ 23 : ℚ) + (frac : ℚ)) * ((2 ^ e : ℚ) / 2 ^ 150)

/-- Little-endian `f32` read from four bytes, as an exact rational. -/
def f32le (b0 b1 b2 b3 : ℕ) : ℚ := f32_from_bits (u32le b0 b1 b2 b3)

/-- IMU scaling factors from `protocol.rs::imu_scale`. -/
def imuScaleAccel : ℚ := 1 / 4096

/-- Gyroscope scale constant (`imu_scale::GYRO`). -/
def imuScaleGyro : ℚ := 1 / 900

/-- Magnetometer scale constant (`imu_scale::MAG`). -/
def imuScaleMag : ℚ := 1 / 1000

/-- Decoded controller reading, mirroring the fields of `ControllerData` that
`parse_raw_bytes` populates (the float fields as exact rationals). -/
structure ControllerData where
  timestamp : ℤ
  temperature : Option ℤ
  accel_x : ℚ
  accel_y : ℚ
  accel_z : ℚ
  gyro_x : ℚ
  gyro_y : ℚ
  gyro_z : ℚ
  mag_x : ℚ
  mag_y : ℚ
  mag_z : ℚ
  touchpad_x : ℕ
  touchpad_y : ℕ
  trigger_button : Bool
  touchpad_button : Bool
  back_button : Bool
  home_button : Bool
  volume_up_button : Bool
  volume_down_button : Bool
  touchpad_touched : Bool
  deriving DecidableEq, Repr

/-- Classified decode failures of the packet decoder: the 2-byte command
acknowledgment (silently discarded, not logged) versus a malformed length
(escalated, logged at debug level). -/
inductive ParseError where
  | commandResponse : ParseError
  | invalidSize : ℕ → ParseError
  deriving DecidableEq, Repr

/-- Embedding of `protocol.rs::parse_raw_bytes`: decode a 60-byte buffer into a
`ControllerData`, choosing between the scaled 16-bit-integer interpretation and
the 32-bit-float fallback exactly as the source does (the test reads only the
three accelerometer words, through `i16::abs`). -/
def parse_raw_bytes (b : List ℕ) : Except ParseError ControllerData :=
  if b.length ≠ 60 then .error (.invalidSize b.length) else
  let g := fun i => b.getD i 0
  let timestamp : ℤ := (u32le (g 0) (g 1) (g 2) (g 3) : ℤ)
  let temperature : Option ℤ := some (i16le (g 4) (g 5))
  let raw_accel_x := i16le (g 8) (g 9)
  let raw_accel_y := i16le (g 10) (g 11)
  let raw_accel_z := i16le (g 12) (g 13)
  let raw_gyro_x := i16le (g 14) (g 15)
  let raw_gyro_y := i16le (g 16) (g 17)
  let raw_gyro_z := i16le (g 18) (g 19)
  let raw_mag_x := i16le (g 20) (g 21)
  let raw_mag_y := i16le (g 22) (g 23)
  let raw_mag_z := i16le (g 24) (g 25)
  let scaled :=
    if wrapAbs16 raw_accel_x < 32000 ∧ wrapAbs16 raw_accel_y < 32000 ∧
        wrapAbs16 raw_accel_z < 32000 then
      ((raw_accel_x : ℚ) * imuScaleAccel, (raw_accel_y : ℚ) * imuScaleAccel,
       (raw_accel_z : ℚ) * imuScaleAccel, (raw_gyro_x : ℚ) * imuScaleGyro,
       (raw_gyro_y : ℚ) * imuScaleGyro, (raw_gyro_z : ℚ) * imuScaleGyro)
    else
      (f32le (g 4) (g 5) (g 6) (g 7), f32le (g 8) (g 9) (g 10) (g 11),
       f32le (g 12) (g 13) (g 14) (g 15), f32le (g 16) (g 17) (g 18) (g 19),
       f32le (g 20) (g 21) (g 22) (g 23), f32le (g 24) (g 25) (g 26) (g 27))
  .ok
    { timestamp := timestamp
      temperature := temperature
      accel_x := scaled.1
      accel_y := scaled.2.1
      accel_z := scaled.2.2.1
      gyro_x := scaled.2.2.2.1
      gyro_y := scaled.2.2.2.2.1
      gyro_z := scaled.2.2.2.2.2
      mag_x := (raw_mag_x : ℚ) * imuScaleMag
      mag_y := (raw_mag_y : ℚ) * imuScaleMag
      mag_z := (raw_mag_z : ℚ) * imuScaleMag
      touchpad_x := u16le (g 54) (g 55)
      touchpad_y := u16le (g 56) (g 57)
      trigger_button := (g 58) &&& 1 != 0
      touchpad_button := (g 58) &&& 2 != 0
      back_button := (g 58) &&& 4 != 0
      home_button := (g 58) &&& 8 != 0
      volume_up_button := (g 58) &&& 16 != 0
      volume_down_button := (g 58) &&& 32 != 0
      touchpad_touched := (g 59) != 0 }

/-- Embedding of `protocol.rs::parse_data_packet`: length classification in
front of `parse_raw_bytes` (2-byte command acknowledgments are a distinguished,
silently discarded condition). -/
def parse_data_packet (b : List ℕ) : Except ParseError ControllerData :=
  if b.length = 2 then .error .commandResponse
  else if b.length ≠ 60 then .error (.invalidSize b.length)
  else parse_raw_bytes b

/-- Wrapping `u16` subtraction, the release-build semantics of `max - min` in
`TouchpadProcessor::process` (for `min ≤ max < 2^16` it is plain subtraction). -/
def u16_wrapping_sub (a b : ℕ) : ℕ := (a + 65536 - b) % 65536

/-- Rust `f64::clamp lo hi` over exact rationals. -/
def rclampQ (lo hi x : ℚ) : ℚ := if x < lo then lo else if x > hi then hi else x

/-- Touchpad calibration bounds (`models.rs::TouchpadCalibration`), six `u16`
fields. -/
structure TouchpadCalibration where
  min_x : ℕ
  max_x : ℕ
  min_y : ℕ
  max_y : ℕ
  center_x : ℕ
  center_y : ℕ
  deriving DecidableEq, Repr

/-- Normalization part of `domain/controller.rs::TouchpadProcessor::process`:
raw touchpad coordinates to centered, range-scaled, clamped values (the
touch-release state reset concerns the engine state, not this pure
computation). -/
def touchpad_process (cal : TouchpadCalibration) (x y : ℕ) : ℚ × ℚ :=
  let center_x : ℚ := cal.center_x
  let center_y : ℚ := cal.center_y
  let range_x : ℚ := (u16_wrapping_sub cal.max_x cal.min_x : ℚ) / 2
  let range_y : ℚ := (u16_wrapping_sub cal.max_y cal.min_y : ℚ) / 2
  let range_x := if range_x = 0 then 1 else range_x
  let range_y := if range_y = 0 then 1 else range_y
  (rclampQ (-1) 1 (((x : ℚ) - center_x) / range_x),
   rclampQ (-1) 1 (((y : ℚ) - center_y) / range_y))

/-- Rust `f64::signum` over the reals (`+0.0` has sign `1`; NaN lies outside
the model). -/
noncomputable def rustSignum (x : ℝ) : ℝ := if x < 0 then -1 else 1

/-- Truncation toward zero, the rounding of Rust's float-to-int `as` casts. -/
noncomputable def truncToInt (x : ℝ) : ℤ := if 0 ≤ x then ⌊x⌋ else ⌈x⌉

/-- Saturating `f64 as i32` cast over the reals. -/
noncomputable def i32_cast (x : ℝ) : ℤ :=
  max (-(2 ^ 31)) (min (2 ^ 31 - 1) (truncToInt x))

/-- Truncation toward zero over the rationals. -/
def truncToIntQ (x : ℚ) : ℤ := if 0 ≤ x then ⌊x⌋ else ⌈x⌉

/-- Saturating `f32 as i32` cast over the rationals. -/
def i32_castQ (x : ℚ) : ℤ :=
  max (-(2 ^ 31)) (min (2 ^ 31 - 1) (truncToIntQ x))

/-- Drop elements from the front until at most `cap` remain: the effect of the
`while len > cap { pop_front }` loops on the smoothing buffers. -/
def trimFront {α : Type} (cap : ℕ) (l : List α) : List α := l.drop (l.length - cap)

/-- Arithmetic mean of a real buffer, `sum / len` as computed by the source. -/
noncomputable def listMeanR (l : List ℝ) : ℝ := l.sum / l.length

/-- Settings fields consumed by the pointer-motion engines
(`domain/settings.rs::Settings`), floats as reals. -/
structure PointerSettings where
  mouse_sensitivity : ℝ
  dead_zone : ℝ
  enable_smoothing : Bool
  smoothing_factor : ℕ
  enable_acceleration : Bool
  acceleration_power : ℝ

/-- Mutable state of a `TouchpadProcessor` between samples. -/
structure PointerState where
  last_processed_pos : Option (ℝ × ℝ)
  delta_buffer_x : List ℝ
  delta_buffer_y : List ℝ

/-- Embedding of the active pointer engine,
`domain/controller.rs::TouchpadProcessor::calculate_mouse_delta`: relative
trackpad motion (optional smoothing / acceleration, scale 800) plus the
edge-joystick term, sub-1-pixel suppression at 0.1, truncating casts. The body
contains no dead-zone test (its doc comment notwithstanding). Returns the
emitted pixel delta and the successor state. -/
noncomputable def domain_calculate_mouse_delta (s : PointerSettings)
    (st : PointerState) (touched : Bool) (cur : ℝ × ℝ) :
    Option (ℤ × ℤ) × PointerState :=
  if !touched then (none, st) else
  let sensitivity := s.mouse_sensitivity
  let rel : ℝ × ℝ × List ℝ × List ℝ :=
    match st.last_processed_pos with
    | none => (0, 0, st.delta_buffer_x, st.delta_buffer_y)
    | some (lx, ly) =>
      let rel_dx := cur.1 - lx
      let rel_dy := cur.2 - ly
      let sm : ℝ × ℝ × List ℝ × List ℝ :=
        if s.enable_smoothing then
          let bx := trimFront s.smoothing_factor (st.delta_buffer_x ++ [rel_dx])
          let bufy := trimFront s.smoothing_factor (st.delta_buffer_y ++ [rel_dy])
          (listMeanR bx, listMeanR bufy, bx, bufy)
        else (rel_dx, rel_dy, st.delta_buffer_x, st.delta_buffer_y)
      let acc : ℝ × ℝ :=
        if s.enable_acceleration then
          (rustSignum sm.1 * |sm.1| ^ s.acceleration_power,
           rustSignum sm.2.1 * |sm.2.1| ^ s.acceleration_power)
        else (sm.1, sm.2.1)
      (acc.1 * sensitivity * 800, acc.2 * sensitivity * 800, sm.2.2.1, sm.2.2.2)
  let st' : PointerState :=
    { last_processed_pos := some cur
      delta_buffer_x := rel.2.2.1
      delta_buffer_y := rel.2.2.2 }
  let joy_threshold : ℝ := 0.6
  let joy_speed : ℝ := 5
  let total_dx :=
    if |cur.1| > joy_threshold then
      rel.1 + rustSignum cur.1 * (|cur.1| - joy_threshold) * joy_speed * sensitivity
    else rel.1
  let total_dy :=
    if |cur.2| > joy_threshold then
      rel.2.1 + rustSignum cur.2 * (|cur.2| - joy_threshold) * joy_speed * sensitivity
    else rel.2.1
  if |total_dx| < 0.1 ∧ |total_dy| < 0.1 then (none, st')
  else (some (i32_cast total_dx, i32_cast total_dy), st')

/-- Embedding of the legacy pointer engine,
`src/controller.rs::TouchpadProcessor::calculate_mouse_delta` (not wired into
the module tree by `main.rs`, kept as the reference relative-only variant):
dead zone at `dead_zone / 100` on the delta magnitude with early return,
smoothing / acceleration, scale 1000, sub-1-pixel suppression at 1.0. -/
noncomputable def legacy_calculate_mouse_delta (s : PointerSettings)
    (st : PointerState) (touched : Bool) (cur : ℝ × ℝ) :
    Option (ℤ × ℤ) × PointerState :=
  if !touched then (none, st) else
  match st.last_processed_pos with
  | none => (none, { st with last_processed_pos := some cur })
  | some (lx, ly) =>
    let dx := cur.1 - lx
    let dy := cur.2 - ly
    let magnitude := Real.sqrt (dx * dx + dy * dy)
    if magnitude < s.dead_zone / 100 then (none, st) else
    let sm : ℝ × ℝ × List ℝ × List ℝ :=
      if s.enable_smoothing then
        let bx := trimFront s.smoothing_factor (st.delta_buffer_x ++ [dx])
        let bufy := trimFront s.smoothing_factor (st.delta_buffer_y ++ [dy])
        (listMeanR bx, listMeanR bufy, bx, bufy)
      else (dx, dy, [], [])
    let acc : ℝ × ℝ :=
      if s.enable_acceleration then
        (rustSignum sm.1 * |sm.1| ^ s.acceleration_power,
         rustSignum sm.2.1 * |sm.2.1| ^ s.acceleration_power)
      else (sm.1, sm.2.1)
    let scale_factor : ℝ := 1000
    let pixel_dx := acc.1 * s.mouse_sensitivity * scale_factor
    let pixel_dy := acc.2 * s.mouse_sensitivity * scale_factor
    let st' : PointerState :=
      { last_processed_pos := some cur
        delta_buffer_x := sm.2.2.1
        delta_buffer_y := sm.2.2.2 }
    if |pixel_dx| < 1 ∧ |pixel_dy| < 1 then (none, st')
    else (some (i32_cast pixel_dx, i32_cast pixel_dy), st')

/-- Fixed smoothing-buffer capacity of the IMU processor
(`ImuProcessor::buffer_size`). -/
def imu_buffer_size : ℕ := 3

/-- Fixed calibration sample target (`ImuProcessor::calibration_target`). -/
def imu_calibration_target : ℕ := 50

/-- Mutable state of `domain/imu.rs::ImuProcessor` (gyro floats as exact
rationals; the unused yaw/pitch accumulators are omitted). -/
structure ImuState where
  gyro_offset_x : ℚ
  gyro_offset_y : ℚ
  gyro_offset_z : ℚ
  gyro_buffer_x : List ℚ
  gyro_buffer_y : List ℚ
  calibration_samples : List (ℚ × ℚ × ℚ)
  is_calibrating : Bool
  deriving DecidableEq, Repr

/-- State created by `ImuProcessor::new`. -/
def ImuState.initial : ImuState :=
  { gyro_offset_x := 0, gyro_offset_y := 0, gyro_offset_z := 0
    gyro_buffer_x := [], gyro_buffer_y := []
    calibration_samples := [], is_calibrating := false }

/-- Embedding of `ImuProcessor::start_calibration`. -/
def start_calibration (s : ImuState) : ImuState :=
  { s with calibration_samples := [], is_calibrating := true }

/-- Embedding of `ImuProcessor::finish_calibration`: per-axis arithmetic mean
of the accumulated samples becomes the bias offset, accumulator cleared,
calibration flag dropped. -/
def finish_calibration (s : ImuState) : ImuState :=
  if s.calibration_samples = [] then { s with is_calibrating := false }
  else
    let count : ℚ := (s.calibration_samples.length : ℚ)
    { s with
      gyro_offset_x := (s.calibration_samples.map (·.1)).sum / count
      gyro_offset_y := (s.calibration_samples.map (·.2.1)).sum / count
      gyro_offset_z := (s.calibration_samples.map (·.2.2)).sum / count
      is_calibrating := false
      calibration_samples := [] }

/-- Embedding of `ImuProcessor::calculate_airmouse_delta`: while calibrating,
append the gyro triple to the accumulator (finishing at the target count) and
produce no motion; otherwise subtract the bias offsets, smooth through the
3-deep buffers, apply the per-axis dead zone 0.5 and near-zero cutoff 0.01,
and scale by `50 * sensitivity` with truncating casts. -/
def calculate_airmouse_delta (sensitivity : ℚ) (g : ℚ × ℚ × ℚ) (s : ImuState) :
    Option (ℤ × ℤ) × ImuState :=
  if s.is_calibrating then
    let samples := s.calibration_samples ++ [g]
    let s' := { s with calibration_samples := samples }
    let s' := if imu_calibration_target ≤ samples.length then finish_calibration s' else s'
    (none, s')
  else
    let gyro_x := g.1 - s.gyro_offset_x
    let gyro_y := g.2.1 - s.gyro_offset_y
    let bx := trimFront imu_buffer_size (s.gyro_buffer_x ++ [gyro_x])
    let bufy := trimFront imu_buffer_size (s.gyro_buffer_y ++ [gyro_y])
    let smoothed_x : ℚ := bx.sum / (bx.length : ℚ)
    let smoothed_y : ℚ := bufy.sum / (bufy.length : ℚ)
    let dead_zone : ℚ := 1 / 2
    let dx := if dead_zone < |smoothed_x| then smoothed_x else 0
    let dy := if dead_zone < |smoothed_y| then smoothed_y else 0
    let s' := { s with gyro_buffer_x := bx, gyro_buffer_y := bufy }
    if |dx| < 1 / 100 ∧ |dy| < 1 / 100 then (none, s')
    else
      let scale := 50 * sensitivity
      (some (i32_castQ (dx * scale), i32_castQ (dy * scale)), s')

/-- Feed a list of gyro samples through `calculate_airmouse_delta`, collecting
the per-sample outputs and the final state. -/
def runImu (sensitivity : ℚ) (inputs : List (ℚ × ℚ × ℚ)) (s : ImuState) :
    List (Option (ℤ × ℤ)) × ImuState :=
  match inputs with
  | [] => ([], s)
  | g :: rest =>
    let step := calculate_airmouse_delta sensitivity g s
    let tail := runImu sensitivity rest step.2
    (step.1 :: tail.1, tail.2)

/-- Gesture classification outcome (`domain/gestures.rs::GestureDirection`). -/
inductive GestureDirection where
  | noDir : GestureDirection
  | up : GestureDirection
  | down : GestureDirection
  | left : GestureDirection
  | right : GestureDirection
  deriving DecidableEq, Repr

/-- One buffered touch sample (`domain/gestures.rs::TouchpadPoint`). -/
structure TouchpadPoint where
  x : ℝ
  y : ℝ
  is_touched : Bool

/-- Mutable state of `GestureRecognizer` (the fixed constants
`sample_count = 5` and `min_gesture_distance = 0.2` are kept global). -/
structure GestureState where
  points : List TouchpadPoint
  start_point : Option TouchpadPoint
  is_gesture_in_progress : Bool

/-- Trajectory ring-buffer capacity (`GestureRecognizer::sample_count`). -/
def gesture_sample_count : ℕ := 5

/-- Base recognition distance (`GestureRecognizer::min_gesture_distance`). -/
noncomputable def min_gesture_distance : ℝ := 0.2

/-- Embedding of `GestureRecognizer::get_recognition_threshold` (happy path;
the lock-poisoning fallback that returns the base distance is not modelled):
`min_gesture_distance / (sensitivity.max(0.1) / 2.0)`. -/
noncomputable def get_recognition_threshold (sensitivity : ℝ) : ℝ :=
  let scale_factor := max sensitivity 0.1 / 2
  min_gesture_distance / scale_factor

/-- Rust `f64::atan2 self other` with `self = y`, `other = x`, over the reals
(signed zeros and NaN lie outside the model; `atan2 0 0 = 0`). -/
noncomputable def atan2 (y x : ℝ) : ℝ :=
  if 0 < x then Real.arctan (y / x)
  else if x < 0 then
    (if 0 ≤ y then Real.arctan (y / x) + Real.pi else Real.arctan (y / x) - Real.pi)
  else if 0 < y then Real.pi / 2
  else if y < 0 then -(Real.pi / 2)
  else 0

/-- Angular sectoring of `GestureRecognizer::calculate_direction`: the final
if-chain over the normalized degree value, tolerance 30. -/
noncomputable def classifyDegrees (degrees : ℝ) : GestureDirection :=
  let tolerance : ℝ := 30
  if degrees ≥ 360 - tolerance ∨ degrees < tolerance then .right
  else if degrees ≥ 90 - tolerance ∧ degrees < 90 + tolerance then .down
  else if degrees ≥ 180 - tolerance ∧ degrees < 180 + tolerance then .left
  else if degrees ≥ 270 - tolerance ∧ degrees < 270 + tolerance then .up
  else .noDir

/-- Embedding of `GestureRecognizer::calculate_direction`: distance gate
against the sensitivity-scaled threshold, then `atan2` in degrees normalized
to `[0, 360)`, then the sector chain. -/
noncomputable def calculate_direction (sensitivity : ℝ) (start endp : ℝ × ℝ) :
    GestureDirection :=
  let dx := endp.1 - start.1
  let dy := endp.2 - start.2
  let distance := Real.sqrt (dx * dx + dy * dy)
  let threshold := get_recognition_threshold sensitivity
  if distance < threshold then .noDir
  else
    let angle := atan2 dy dx
    let degrees := angle * 180 / Real.pi
    let degrees := if degrees < 0 then degrees + 360 else degrees
    classifyDegrees degrees

/-- Embedding of `GestureRecognizer::end_gesture`: with at least two buffered
points, classify from the recorded start point to the last buffered point;
clear the trajectory and the in-progress flag; report `some` only for an
actual direction. -/
noncomputable def end_gesture (sensitivity : ℝ) (s : GestureState) :
    Option GestureDirection × GestureState :=
  let result :=
    if 2 ≤ s.points.length then
      match s.start_point, s.points.getLast? with
      | some st, some e => calculate_direction sensitivity (st.x, st.y) (e.x, e.y)
      | _, _ => GestureDirection.noDir
    else GestureDirection.noDir
  let s' : GestureState := { s with is_gesture_in_progress := false, points := [] }
  (if result ≠ GestureDirection.noDir then some result else none, s')

/-- Embedding of the Mouse-mode touchpad-scroll block of
`presentation/app.rs::GearVRApp::process_controller_data` (lines 215-241):
raw touchpad coordinates minus the pointer engine's recorded
`last_processed_pos` (which holds *normalized* coordinates, set only by
Touchpad-mode `calculate_mouse_delta`), threshold 0.05, emitting vertical and
horizontal wheel ticks. Returns `(vertical, horizontal)`. -/
noncomputable def mouse_scroll (touchpad_x touchpad_y : ℕ)
    (last : Option (ℝ × ℝ)) (enable_tp touched : Bool) : Option ℤ × Option ℤ :=
  if enable_tp && touched then
    let fallback : ℝ × ℝ := ((touchpad_x : ℝ), (touchpad_y : ℝ))
    let dx := (touchpad_x : ℝ) - (last.getD fallback).1
    let dy := (touchpad_y : ℝ) - (last.getD fallback).2
    let threshold : ℝ := 0.05
    let vert : Option ℤ := if threshold < |dy| then some (if 0 < dy then -1 else 1) else none
    let horiz : Option ℤ := if threshold < |dx| then some (if 0 < dx then 1 else -1) else none
    (vert, horiz)
  else (none, none)

/-- Byte `i` of a buffer (the buffers under study have checked length, so the
default is never consulted). -/
def getB (b : List ℕ) (i : ℕ) : ℕ := b.getD i 0

/-- Raw little-endian signed 16-bit sensor word starting at byte `i`. -/
def rawWord (b : List ℕ) (i : ℕ) : ℤ := i16le (getB b i) (getB b (i + 1))

/-- Condition of claim C1/C7 as the spec words it: all nine raw sensor words
(accelerometer, gyroscope, magnetometer X/Y/Z) have magnitude below 32000. -/
def allNineSmall (b : List ℕ) : Prop :=
  |rawWord b 8| < 32000 ∧ |rawWord b 10| < 32000 ∧ |rawWord b 12| < 32000 ∧
  |rawWord b 14| < 32000 ∧ |rawWord b 16| < 32000 ∧ |rawWord b 18| < 32000 ∧
  |rawWord b 20| < 32000 ∧ |rawWord b 22| < 32000 ∧ |rawWord b 24| < 32000

instance (b : List ℕ) : Decidable (allNineSmall b) := by
  unfold allNineSmall; infer_instance

/-- Condition the source actually tests before choosing the scaled
interpretation: the three *accelerometer* words, through the wrapping
`i16::abs`. -/
def accelSmall (b : List ℕ) : Prop :=
  wrapAbs16 (rawWord b 8) < 32000 ∧ wrapAbs16 (rawWord b 10) < 32000 ∧
  wrapAbs16 (rawWord b 12) < 32000

instance (b : List ℕ) : Decidable (accelSmall b) := by
  unfold accelSmall; infer_instance

/-- Decoded reading that claim C1 documents, constructed from the spec's field
formulas: little-endian words at the documented offsets, scale constants
1/4096, 1/900, 1/1000, button bits 0-5 of byte 58, touch flag byte 59. -/
def C1_expected (b : List ℕ) : ControllerData :=
  { timestamp := (u32le (getB b 0) (getB b 1) (getB b 2) (getB b 3) : ℤ)
    temperature := some (i16le (getB b 4) (getB b 5))
    accel_x := (rawWord b 8 : ℚ) * (1 / 4096)
    accel_y := (rawWord b 10 : ℚ) * (1 / 4096)
    accel_z := (rawWord b 12 : ℚ) * (1 / 4096)
    gyro_x := (rawWord b 14 : ℚ) * (1 / 900)
    gyro_y := (rawWord b 16 : ℚ) * (1 / 900)
    gyro_z := (rawWord b 18 : ℚ) * (1 / 900)
    mag_x := (rawWord b 20 : ℚ) * (1 / 1000)
    mag_y := (rawWord b 22 : ℚ) * (1 / 1000)
    mag_z := (rawWord b 24 : ℚ) * (1 / 1000)
    touchpad_x := u16le (getB b 54) (getB b 55)
    touchpad_y := u16le (getB b 56) (getB b 57)
    trigger_button := (getB b 58).testBit 0
    touchpad_button := (getB b 58).testBit 1
    back_button := (getB b 58).testBit 2
    home_button := (getB b 58).testBit 3
    volume_up_button := (getB b 58).testBit 4
    volume_down_button := (getB b 58).testBit 5
    touchpad_touched := getB b 59 != 0 }

/-- The six accelerometer/gyroscope values of a decoded reading. -/
def imuSix (d : ControllerData) : ℚ × ℚ × ℚ × ℚ × ℚ × ℚ :=
  (d.accel_x, d.accel_y, d.accel_z, d.gyro_x, d.gyro_y, d.gyro_z)

/-- The six accelerometer/gyroscope values `parse_raw_bytes` yields, when it
succeeds. -/
def imuSixOf (b : List ℕ) : Option (ℚ × ℚ × ℚ × ℚ × ℚ × ℚ) :=
  (parse_raw_bytes b).toOption.map imuSix

/-- Spec-side scaled-integer interpretation of the six accel/gyro values. -/
def scaledSix (b : List ℕ) : ℚ × ℚ × ℚ × ℚ × ℚ × ℚ :=
  ((rawWord b 8 : ℚ) * (1 / 4096), (rawWord b 10 : ℚ) * (1 / 4096),
   (rawWord b 12 : ℚ) * (1 / 4096), (rawWord b 14 : ℚ) * (1 / 900),
   (rawWord b 16 : ℚ) * (1 / 900), (rawWord b 18 : ℚ) * (1 / 900))

/-- Spec-side 32-bit-float fallback interpretation of the six accel/gyro
values, at the byte offsets the fallback actually uses (4, 8, 12, 16, 20,
24). -/
def floatSix (b : List ℕ) : ℚ × ℚ × ℚ × ℚ × ℚ × ℚ :=
  (f32le (getB b 4) (getB b 5) (getB b 6) (getB b 7),
   f32le (getB b 8) (getB b 9) (getB b 10) (getB b 11),
   f32le (getB b 12) (getB b 13) (getB b 14) (getB b 15),
   f32le (getB b 16) (getB b 17) (getB b 18) (getB b 19),
   f32le (getB b 20) (getB b 21) (getB b 22) (getB b 23),
   f32le (getB b 24) (getB b 25) (getB b 26) (getB b 27))

/-- Claim C7's dual-interpretation rule at one buffer, as the claim states it:
scaled exactly when all nine words are small, float fallback otherwise. -/
def claimC7At (b : List ℕ) : Prop :=
  (allNineSmall b → imuSixOf b = some (scaledSix b)) ∧
  (¬allNineSmall b → imuSixOf b = some (floatSix b))

instance (b : List ℕ) : Decidable (claimC7At b) :=
  if h9 : allNineSmall b then
    if hs : imuSixOf b = some (scaledSix b) then
      isTrue ⟨fun _ => hs, fun hn => absurd h9 hn⟩
    else isFalse fun hc => hs (hc.1 h9)
  else
    if hf : imuSixOf b = some (floatSix b) then
      isTrue ⟨fun h => absurd h h9, fun _ => hf⟩
    else isFalse fun hc => hf (hc.2 h9)

/-- Buffer of 60 bytes whose accelerometer words are zero but whose gyroscope
X word is 32500 (bytes 14,15 = 0xF4,0x7E): the source still takes the scaled
branch, refuting claim C7's all-nine condition. -/
def bc7 : List ℕ := List.replicate 14 0 ++ [244, 126] ++ List.replicate 44 0

/-- Buffer of 60 bytes whose accelerometer X word is 32000 (bytes 8,9 =
0x00,0x7D), driving the decoder into the float-fallback branch. -/
def bf7 : List ℕ := List.replicate 9 0 ++ [125] ++ List.replicate 50 0

/-- Calibration with the center pinned at `max` rather than the midpoint —
tolerated by the data model ("out-of-range centers … simply bias
normalization") and the refuting input for claim C3's exact-saturation part. -/
def calC3 : TouchpadCalibration :=
  { min_x := 0, max_x := 100, min_y := 0, max_y := 100
    center_x := 100, center_y := 100 }

/-! Helper lemmas shared by the claim theorems. -/

lemma wrapAbs16_lt_of_abs_lt {z : ℤ} (h : |z| < 32000) : wrapAbs16 z < 32000 := by
  unfold wrapAbs16
  split_ifs with h1
  · subst h1; norm_num at h
  · exact h

lemma band_pow_ne_zero_eq_testBit (n k : ℕ) : (n &&& 2 ^ k != 0) = n.testBit k := by
  have h := Nat.and_two_pow n k
  have hpow : (2 : ℕ) ^ k ≠ 0 := (pow_pos (by norm_num : (0 : ℕ) < 2) k).ne'
  cases hb : n.testBit k <;> rw [hb] at h <;> simp [h, hpow]

lemma band_one_eq_testBit (n : ℕ) : (n &&& 1 != 0) = n.testBit 0 := by
  simpa using band_pow_ne_zero_eq_testBit n 0

lemma band_two_eq_testBit (n : ℕ) : (n &&& 2 != 0) = n.testBit 1 := by
  simpa using band_pow_ne_zero_eq_testBit n 1

lemma band_four_eq_testBit (n : ℕ) : (n &&& 4 != 0) = n.testBit 2 := by
  simpa using band_pow_ne_zero_eq_testBit n 2

lemma band_eight_eq_testBit (n : ℕ) : (n &&& 8 != 0) = n.testBit 3 := by
  simpa using band_pow_ne_zero_eq_testBit n 3

lemma band_sixteen_eq_testBit (n : ℕ) : (n &&& 16 != 0) = n.testBit 4 := by
  simpa using band_pow_ne_zero_eq_testBit n 4

lemma band_thirtytwo_eq_testBit (n : ℕ) : (n &&& 32 != 0) = n.testBit 5 := by
  simpa using band_pow_ne_zero_eq_testBit n 5

lemma parse_raw_bytes_len60 (b : List ℕ) (hlen : b.length = 60) :
    ∃ d, parse_raw_bytes b = .ok d := by
  unfold parse_raw_bytes
  rw [if_neg (by omega)]
  exact ⟨_, rfl⟩

/-- Claim C2: decoding an arbitrary byte buffer always returns a classified
result and never panics. A 2-byte buffer is the distinguished, non-escalated
command-acknowledgment condition (distinct from every decode error); any other
length except 60 is the escalated `invalidSize` decode error; and every
60-byte buffer — any contents, including sensor words equal to `-32768`, whose
`i16::abs` wraps in release builds — decodes to a classified `ok` result. The
embedding of `parse_data_packet` is a total function, the shallow form of
panic-freedom. -/
theorem C2_total_classification :
    (∀ b : List ℕ, b.length = 2 → parse_data_packet b = .error .commandResponse) ∧
    (∀ n : ℕ, ParseError.commandResponse ≠ ParseError.invalidSize n) ∧
    (∀ b : List ℕ, b.length ≠ 2 → b.length ≠ 60 →
      parse_data_packet b = .error (.invalidSize b.length)) ∧
    (∀ b : List ℕ, b.length = 60 → ∃ d, parse_data_packet b = .ok d) := by
  refine ⟨fun b h => ?_, fun n => by simp, fun b h2 h60 => ?_, fun b h => ?_⟩
  · unfold parse_data_packet
    rw [if_pos h]
  · unfold parse_data_packet
    rw [if_neg h2, if_pos h60]
  · obtain ⟨d, hd⟩ := parse_raw_bytes_len60 b h
    refine ⟨d, ?_⟩
    unfold parse_data_packet
    rw [if_neg (by omega), if_neg (by omega)]
    exact hd

/-- Witness for C2 at concrete buffers: a 2-byte acknowledgment, a 3-byte
malformed packet, and a 60-byte packet whose accelerometer X word is `-32768`
(bytes 8,9 = 0x00,0x80). -/
theorem C2_total_classification_witness :
    parse_data_packet [0, 0] = .error .commandResponse ∧
    parse_data_packet [0, 0, 0] = .error (.invalidSize 3) ∧
    (∃ d, parse_data_packet
      (List.replicate 8 0 ++ [0, 128] ++ List.replicate 50 0) = .ok d) :=
  ⟨C2_total_classification.1 [0, 0] (by decide),
   C2_total_classification.2.2.1 [0, 0, 0] (by decide) (by decide),
   C2_total_classification.2.2.2 _ (by decide)⟩

/-- Claim C1: every 60-byte buffer whose nine raw sensor words all have
magnitude below 32000 decodes successfully to exactly the documented reading:
timestamp `u32le` of bytes 0-3, temperature `i16le` of bytes 4-5, accelerometer
raw × 1/4096, gyroscope raw × 1/900, magnetometer raw × 1/1000, touchpad X/Y
`u16le` of bytes 54-55 and 56-57, the six buttons bits 0-5 of byte 58, and
touchpad-touched iff byte 59 is nonzero. -/
theorem C1_decode_documented_fields (b : List ℕ) (hlen : b.length = 60)
    (hsmall : allNineSmall b) : parse_raw_bytes b = .ok (C1_expected b) := by
  obtain ⟨h1, h2, h3, -, -, -, -, -, -⟩ := hsmall
  simp only [rawWord, getB] at h1 h2 h3
  have hc : wrapAbs16 (i16le (b.getD 8 0) (b.getD 9 0)) < 32000 ∧
      wrapAbs16 (i16le (b.getD 10 0) (b.getD 11 0)) < 32000 ∧
      wrapAbs16 (i16le (b.getD 12 0) (b.getD 13 0)) < 32000 :=
    ⟨wrapAbs16_lt_of_abs_lt h1, wrapAbs16_lt_of_abs_lt h2,
     wrapAbs16_lt_of_abs_lt h3⟩
  simp only [parse_raw_bytes, hlen, ne_eq, not_true_eq_false, if_false,
    if_pos hc, C1_expected, rawWord, getB, imuScaleAccel, imuScaleGyro,
    imuScaleMag, Except.ok.injEq, ControllerData.mk.injEq,
    band_one_eq_testBit, band_two_eq_testBit, band_four_eq_testBit,
    band_eight_eq_testBit, band_sixteen_eq_testBit, band_thirtytwo_eq_testBit]

/-- Witness for C1: a buffer with touchpad X = 315, buttons byte 0x15 and the
touch flag set decodes to the documented reading. -/
theorem C1_decode_documented_fields_witness :
    (List.replicate 54 0 ++ [59, 1, 0, 0, 21, 1]).length = 60 ∧
    allNineSmall (List.replicate 54 0 ++ [59, 1, 0, 0, 21, 1]) ∧
    parse_raw_bytes (List.replicate 54 0 ++ [59, 1, 0, 0, 21, 1]) =
      .ok (C1_expected (List.replicate 54 0 ++ [59, 1, 0, 0, 21, 1])) :=
  ⟨by decide, by decide,
   C1_decode_documented_fields _ (by decide) (by decide)⟩

lemma imuSixOf_eq_scaled (b : List ℕ) (hlen : b.length = 60)
    (hc : accelSmall b) : imuSixOf b = some (scaledSix b) := by
  have hc' : wrapAbs16 (i16le (b.getD 8 0) (b.getD 9 0)) < 32000 ∧
      wrapAbs16 (i16le (b.getD 10 0) (b.getD 11 0)) < 32000 ∧
      wrapAbs16 (i16le (b.getD 12 0) (b.getD 13 0)) < 32000 := by
    simpa only [accelSmall, rawWord, getB] using hc
  simp only [imuSixOf, parse_raw_bytes, hlen, ne_eq, not_true_eq_false,
    if_false, if_pos hc', Except.toOption, Option.map_some', imuSix,
    scaledSix, rawWord, getB, imuScaleAccel, imuScaleGyro]

lemma imuSixOf_eq_float (b : List ℕ) (hlen : b.length = 60)
    (hc : ¬accelSmall b) : imuSixOf b = some (floatSix b) := by
  have hc' : ¬(wrapAbs16 (i16le (b.getD 8 0) (b.getD 9 0)) < 32000 ∧
      wrapAbs16 (i16le (b.getD 10 0) (b.getD 11 0)) < 32000 ∧
      wrapAbs16 (i16le (b.getD 12 0) (b.getD 13 0)) < 32000) := by
    simpa only [accelSmall, rawWord, getB] using hc
  simp only [imuSixOf, parse_raw_bytes, hlen, ne_eq, not_true_eq_false,
    if_false, if_neg hc', Except.toOption, Option.map_some', imuSix,
    floatSix, getB]

/-- Claim C7 (amended): the decoder takes the scaled 16-bit interpretation of
the accelerometer/gyroscope fields exactly when the three raw *accelerometer*
words pass the wrapping-absolute-value bound 32000 (the gyroscope and
magnetometer words are not consulted, and `-32768` wraps into range);
otherwise it reinterprets bytes 4..28 as six little-endian 32-bit floats at
the fallback's own offsets (4, 8, 12, 16, 20, 24). -/
theorem C7_dual_interpretation (b : List ℕ) (hlen : b.length = 60) :
    (accelSmall b → imuSixOf b = some (scaledSix b)) ∧
    (¬accelSmall b → imuSixOf b = some (floatSix b)) :=
  ⟨imuSixOf_eq_scaled b hlen, imuSixOf_eq_float b hlen⟩

/-- Witness for C7 at two concrete buffers: `bc7` (accelerometer words small,
scaled branch) and `bf7` (accelerometer X word 32000, float branch). -/
theorem C7_dual_interpretation_witness :
    accelSmall bc7 ∧ imuSixOf bc7 = some (scaledSix bc7) ∧
    ¬accelSmall bf7 ∧ imuSixOf bf7 = some (floatSix bf7) :=
  ⟨by decide, (C7_dual_interpretation bc7 (by decide)).1 (by decide),
   by decide, (C7_dual_interpretation bf7 (by decide)).2 (by decide)⟩

/-- Counterexample to C7 as frozen: at buffer `bc7` the gyroscope X word is
32500 (breaking the all-nine-below-32000 condition), yet the decoder still
takes the scaled interpretation — the source tests only the accelerometer
words, so the claimed "exactly when all nine are small" rule is false. -/
theorem C7_counterexample : ¬claimC7At bc7 := by
  intro hc
  have hfl := hc.2 (by decide)
  have hsc : imuSixOf bc7 = some (scaledSix bc7) :=
    imuSixOf_eq_scaled bc7 (by decide) (by decide)
  rw [hsc, Option.some_inj] at hfl
  have h4 := congrArg (fun t => t.2.2.2.1) hfl
  simp only [scaledSix, floatSix] at h4
  rw [show rawWord bc7 14 = 32500 from by decide] at h4
  rw [show getB bc7 16 = 0 from by decide, show getB bc7 17 = 0 from by decide,
    show getB bc7 18 = 0 from by decide, show getB bc7 19 = 0 from by decide] at h4
  have hz : f32le 0 0 0 0 = 0 := by norm_num [f32le, f32_from_bits, u32le]
  rw [hz] at h4
  norm_num at h4

lemma rclampQ_mem (x : ℚ) : -1 ≤ rclampQ (-1) 1 x ∧ rclampQ (-1) 1 x ≤ 1 := by
  unfold rclampQ
  split_ifs <;> constructor <;> linarith

lemma rclampQ_of_le_neg_one {x : ℚ} (h : x ≤ -1) : rclampQ (-1) 1 x = -1 := by
  unfold rclampQ
  split_ifs <;> linarith

lemma rclampQ_of_one_le {x : ℚ} (h : 1 ≤ x) : rclampQ (-1) 1 x = 1 := by
  unfold rclampQ
  split_ifs <;> linarith

lemma u16_wrapping_sub_of_le {a b : ℕ} (hle : b ≤ a) (ha : a < 65536) :
    u16_wrapping_sub a b = a - b := by
  unfold u16_wrapping_sub
  omega

lemma u16_wrapping_sub_castQ {a b : ℕ} (hle : b ≤ a) (ha : a < 65536) :
    ((u16_wrapping_sub a b : ℕ) : ℚ) = (a : ℚ) - b := by
  rw [u16_wrapping_sub_of_le hle ha, Nat.cast_sub hle]

/-- Spec-side per-axis normalization formula of claim C3 (divisor substituted
by 1 when `max = min`, then clamped). -/
def specAxisNorm (minv maxv c v : ℕ) : ℚ :=
  rclampQ (-1) 1 (((v : ℚ) - c) /
    (if (maxv : ℚ) - minv = 0 then 1 else ((maxv : ℚ) - minv) / 2))

lemma specAxisNorm_saturates (minv maxv c v : ℕ) (hle : minv ≤ maxv)
    (hmid : 2 * c = minv + maxv) :
    (v < minv → specAxisNorm minv maxv c v = -1) ∧
    (maxv < v → specAxisNorm minv maxv c v = 1) := by
  have hmidQ : (2 : ℚ) * c = (minv : ℚ) + maxv := by exact_mod_cast hmid
  by_cases heq : (maxv : ℚ) - minv = 0
  · constructor <;> intro hv
    · have h1 : v + 1 ≤ minv := hv
      have hvQ : (v : ℚ) + 1 ≤ minv := by exact_mod_cast h1
      unfold specAxisNorm
      rw [if_pos heq, div_one]
      exact rclampQ_of_le_neg_one (by linarith)
    · have h1 : maxv + 1 ≤ v := hv
      have hvQ : (maxv : ℚ) + 1 ≤ v := by exact_mod_cast h1
      unfold specAxisNorm
      rw [if_pos heq, div_one]
      exact rclampQ_of_one_le (by linarith)
  · have hleQ : (minv : ℚ) ≤ maxv := by exact_mod_cast hle
    have hd : (0 : ℚ) < ((maxv : ℚ) - minv) / 2 := by
      rcases hleQ.lt_or_eq with h | h
      · linarith
      · exact absurd (by linarith) heq
    constructor <;> intro hv
    · have h1 : v + 1 ≤ minv := hv
      have hvQ : (v : ℚ) + 1 ≤ minv := by exact_mod_cast h1
      unfold specAxisNorm
      rw [if_neg heq]
      apply rclampQ_of_le_neg_one
      rw [div_le_iff₀ hd]
      linarith
    · have h1 : maxv + 1 ≤ v := hv
      have hvQ : (maxv : ℚ) + 1 ≤ v := by exact_mod_cast h1
      unfold specAxisNorm
      rw [if_neg heq]
      apply rclampQ_of_one_le
      rw [le_div_iff₀ hd]
      linarith

lemma touchpad_process_eq_spec (cal : TouchpadCalibration) (x y : ℕ)
    (hx : cal.min_x ≤ cal.max_x) (hy : cal.min_y ≤ cal.max_y)
    (hxm : cal.max_x < 65536) (hym : cal.max_y < 65536) :
    touchpad_process cal x y =
      (specAxisNorm cal.min_x cal.max_x cal.center_x x,
       specAxisNorm cal.min_y cal.max_y cal.center_y y) := by
  simp only [touchpad_process, specAxisNorm]
  rw [u16_wrapping_sub_castQ hx hxm, u16_wrapping_sub_castQ hy hym]
  by_cases hdx : (cal.max_x : ℚ) - cal.min_x = 0 <;>
    by_cases hdy : (cal.max_y : ℚ) - cal.min_y = 0 <;>
    simp [hdx, hdy, div_eq_zero_iff]

/-- Claim C3 (amended): the normalizer computes
`clamp ((raw − center) / ((max − min) / 2))` per axis with divisor 1 when
`max = min`, its output always lies in `[-1, 1]` (no division by zero for a
degenerate calibration), and — *provided the center sits at the midpoint of
`[min, max]`* (the data model tolerates arbitrary centers, which bias
normalization) — any raw coordinate outside `[min, max]` saturates to exactly
`±1`. -/
theorem C3_normalizer (cal : TouchpadCalibration) (x y : ℕ)
    (hx : cal.min_x ≤ cal.max_x) (hy : cal.min_y ≤ cal.max_y)
    (hxm : cal.max_x < 65536) (hym : cal.max_y < 65536) :
    touchpad_process cal x y =
      (specAxisNorm cal.min_x cal.max_x cal.center_x x,
       specAxisNorm cal.min_y cal.max_y cal.center_y y) ∧
    (-1 ≤ (touchpad_process cal x y).1 ∧ (touchpad_process cal x y).1 ≤ 1) ∧
    (-1 ≤ (touchpad_process cal x y).2 ∧ (touchpad_process cal x y).2 ≤ 1) ∧
    (2 * cal.center_x = cal.min_x + cal.max_x →
      (x < cal.min_x → (touchpad_process cal x y).1 = -1) ∧
      (cal.max_x < x → (touchpad_process cal x y).1 = 1)) ∧
    (2 * cal.center_y = cal.min_y + cal.max_y →
      (y < cal.min_y → (touchpad_process cal x y).2 = -1) ∧
      (cal.max_y < y → (touchpad_process cal x y).2 = 1)) := by
  have hspec := touchpad_process_eq_spec cal x y hx hy hxm hym
  refine ⟨hspec, ?_, ?_, fun hmid => ?_, fun hmid => ?_⟩
  · rw [hspec]
    exact rclampQ_mem _
  · rw [hspec]
    exact rclampQ_mem _
  · have hs := specAxisNorm_saturates cal.min_x cal.max_x cal.center_x x hx hmid
    exact ⟨fun hv => by rw [hspec]; exact hs.1 hv,
           fun hv => by rw [hspec]; exact hs.2 hv⟩
  · have hs := specAxisNorm_saturates cal.min_y cal.max_y cal.center_y y hy hmid
    exact ⟨fun hv => by rw [hspec]; exact hs.1 hv,
           fun hv => by rw [hspec]; exact hs.2 hv⟩

/-- Witness for C3 at the near-default calibration (center at the exact
midpoint per axis): an X overshoot saturates to `1`, a Y undershoot to `-1`. -/
theorem C3_normalizer_witness :
    (touchpad_process ⟨0, 314, 10, 300, 157, 155⟩ 400 2).1 = 1 ∧
    (touchpad_process ⟨0, 314, 10, 300, 157, 155⟩ 400 2).2 = -1 :=
  ⟨((C3_normalizer ⟨0, 314, 10, 300, 157, 155⟩ 400 2 (by decide) (by decide)
      (by decide) (by decide)).2.2.2.1 (by decide)).2 (by decide),
   ((C3_normalizer ⟨0, 314, 10, 300, 157, 155⟩ 400 2 (by decide) (by decide)
      (by decide) (by decide)).2.2.2.2 (by decide)).1 (by decide)⟩

/-- Counterexample to C3 as frozen: with the tolerated off-midpoint center
`calC3` (min 0, max 100, center 100) the raw coordinate 101 lies outside
`[min, max]`, yet the normalized output is `1/50`, not exactly `±1`. -/
theorem C3_counterexample :
    calC3.min_x ≤ calC3.max_x ∧ calC3.max_x < 101 ∧
    (touchpad_process calC3 101 101).1 ≠ 1 ∧
    (touchpad_process calC3 101 101).1 ≠ -1 := by
  refine ⟨by norm_num [calC3], by norm_num [calC3], ?_, ?_⟩ <;>
    norm_num [touchpad_process, calC3, u16_wrapping_sub, rclampQ]

/-- Claim C4 (code bug): the active pointer engine
(`domain/controller.rs::calculate_mouse_delta`, whose doc comment promises
"smoothing, deadzone, and acceleration") applies no dead zone at all: with
`dead_zone = 10` (legacy threshold `10/100 = 0.1`), sensitivity 2, smoothing
and acceleration off, a touched sample whose raw delta from the recorded last
position has magnitude `0.05 < 0.1` still emits `some (80, 0)`; the legacy
variant (`src/controller.rs`), which does implement the check, returns no
motion on the identical input. -/
theorem C4_missing_dead_zone :
    (domain_calculate_mouse_delta ⟨2, 10, false, 5, false, 2⟩
        ⟨some (0, 0), [], []⟩ true (1/20, 0)).1 = some (80, 0) ∧
    (legacy_calculate_mouse_delta ⟨2, 10, false, 5, false, 2⟩
        ⟨some (0, 0), [], []⟩ true (1/20, 0)).1 = none := by
  constructor
  · simp only [domain_calculate_mouse_delta]
    norm_num [rustSignum, i32_cast, truncToInt, abs_of_nonneg]
  · simp only [legacy_calculate_mouse_delta]
    have hm : Real.sqrt ((1/20 - 0) * (1/20 - 0) + (0 - 0) * (0 - 0)) <
        (10 : ℝ) / 100 := by
      rw [show ((1/20 - 0) * (1/20 - 0) + (0 - 0) * (0 - 0) : ℝ) = 1/400 by
        norm_num]
      rw [Real.sqrt_lt' (by norm_num)]
      norm_num
    rw [if_neg (by norm_num), if_pos hm]

/-- Claim C8 (amended): both engine variants return no motion while untouched;
on the first touched sample of a stroke (no recorded last position) both
record the position, the legacy variant always returns no motion, and the
active (hybrid) variant returns no motion *provided the position lies within
the edge-joystick threshold* (`|x| ≤ 0.6` and `|y| ≤ 0.6`) — at the edge its
joystick term can already emit motion. -/
theorem C8_first_sample (s : PointerSettings) (st : PointerState)
    (cur : ℝ × ℝ) :
    (domain_calculate_mouse_delta s st false cur).1 = none ∧
    (legacy_calculate_mouse_delta s st false cur).1 = none ∧
    (st.last_processed_pos = none →
      (legacy_calculate_mouse_delta s st true cur).1 = none ∧
      (legacy_calculate_mouse_delta s st true cur).2.last_processed_pos =
        some cur ∧
      (|cur.1| ≤ 0.6 → |cur.2| ≤ 0.6 →
        (domain_calculate_mouse_delta s st true cur).1 = none ∧
        (domain_calculate_mouse_delta s st true cur).2.last_processed_pos =
          some cur)) := by
  refine ⟨?_, ?_, fun hnone => ⟨?_, ?_, fun h1 h2 => ⟨?_, ?_⟩⟩⟩
  · simp [domain_calculate_mouse_delta]
  · simp [legacy_calculate_mouse_delta]
  · simp [legacy_calculate_mouse_delta, hnone]
  · simp [legacy_calculate_mouse_delta, hnone]
  · simp only [domain_calculate_mouse_delta, hnone, Bool.not_true,
      Bool.false_eq_true, if_false]
    rw [if_neg (not_lt.2 h1), if_neg (not_lt.2 h2)]
    norm_num
  · simp only [domain_calculate_mouse_delta, hnone, Bool.not_true,
      Bool.false_eq_true, if_false]
    rw [if_neg (not_lt.2 h1), if_neg (not_lt.2 h2)]
    norm_num

/-- Witness for C8 at a concrete fresh stroke at the pad center. -/
theorem C8_first_sample_witness :
    (legacy_calculate_mouse_delta ⟨2, 10, false, 5, false, 2⟩
        ⟨none, [], []⟩ true (0, 0)).1 = none ∧
    (domain_calculate_mouse_delta ⟨2, 10, false, 5, false, 2⟩
        ⟨none, [], []⟩ true (0, 0)).1 = none :=
  ⟨((C8_first_sample _ _ _).2.2 rfl).1,
   (((C8_first_sample _ _ _).2.2 rfl).2.2 (by norm_num) (by norm_num)).1⟩

/-- Counterexample to C8 as frozen: in the hybrid variant the very first
touched sample of a stroke at the right edge (normalized position `(1, 0)`,
sensitivity 2) already emits motion `some (4, 0)` from the edge-joystick term,
not "no motion". -/
theorem C8_counterexample :
    (domain_calculate_mouse_delta ⟨2, 10, false, 5, false, 2⟩
        ⟨none, [], []⟩ true (1, 0)).1 ≠ none ∧
    (domain_calculate_mouse_delta ⟨2, 10, false, 5, false, 2⟩
        ⟨none, [], []⟩ true (1, 0)).1 = some (4, 0) := by
  have h : (domain_calculate_mouse_delta ⟨2, 10, false, 5, false, 2⟩
      ⟨none, [], []⟩ true (1, 0)).1 = some (4, 0) := by
    simp only [domain_calculate_mouse_delta]
    norm_num [rustSignum, i32_cast, truncToInt, abs_of_nonneg]
  exact ⟨by rw [h]; simp, h⟩

lemma runImu_calibrating (sens : ℚ) (c : ℚ × ℚ × ℚ) :
    ∀ (n k : ℕ) (bs : ImuState), k + n = 50 → 1 ≤ n →
      bs.is_calibrating = true →
      bs.calibration_samples = List.replicate k c →
      (runImu sens (List.replicate n c) bs).1 = List.replicate n none ∧
      (runImu sens (List.replicate n c) bs).2 =
        finish_calibration
          { bs with calibration_samples := List.replicate 50 c } := by
  intro n
  induction n with
  | zero => intro k bs hk h1 _ _; exact absurd h1 (by norm_num)
  | succ m ih =>
    intro k bs hk _ hcal hsamp
    have hstep : calculate_airmouse_delta sens c bs =
        (none,
          if imu_calibration_target ≤ k + 1 then
            finish_calibration
              { bs with calibration_samples := List.replicate (k + 1) c }
          else { bs with calibration_samples := List.replicate (k + 1) c }) := by
      simp only [calculate_airmouse_delta, hcal, if_true, hsamp,
        ← List.replicate_succ']
      simp [List.length_replicate]
    rcases Nat.lt_or_ge (k + 1) imu_calibration_target with hlt | hge
    · have hm : 1 ≤ m := by
        simp only [imu_calibration_target] at hlt
        omega
      have ihm := ih (k + 1)
        { bs with calibration_samples := List.replicate (k + 1) c }
        (by omega) hm (by simpa using hcal) rfl
      simp only [List.replicate_succ] at ihm
      constructor
      · simp only [List.replicate_succ, runImu, hstep, if_neg (not_le.2 hlt)]
        rw [ihm.1]
      · simp only [List.replicate_succ, runImu, hstep, if_neg (not_le.2 hlt)]
        rw [ihm.2]
    · have hm : m = 0 := by
        simp only [imu_calibration_target] at hge
        omega
      subst hm
      have hk' : k = 49 := by omega
      subst hk'
      simp only [List.replicate_succ, List.replicate_zero, runImu, hstep,
        if_pos hge]
      exact ⟨trivial, trivial⟩

lemma finish_calibration_replicate (bs : ImuState) (c : ℚ × ℚ × ℚ) :
    finish_calibration { bs with calibration_samples := List.replicate 50 c } =
      { bs with
        gyro_offset_x := c.1
        gyro_offset_y := c.2.1
        gyro_offset_z := c.2.2
        is_calibrating := false
        calibration_samples := [] } := by
  unfold finish_calibration
  rw [if_neg (by simp)]
  simp only [List.map_replicate, List.sum_replicate, List.length_replicate,
    nsmul_eq_mul, Nat.cast_ofNat]
  norm_num

lemma airmouse_steady_step (sens c1 c2 c3 : ℚ) (s : ImuState)
    (hcal : s.is_calibrating = false)
    (hox : s.gyro_offset_x = c1) (hoy : s.gyro_offset_y = c2)
    (hbx : ∀ x ∈ s.gyro_buffer_x, x = 0)
    (hby : ∀ x ∈ s.gyro_buffer_y, x = 0) :
    calculate_airmouse_delta sens (c1, c2, c3) s =
      (none,
        { s with
          gyro_buffer_x :=
            trimFront imu_buffer_size (s.gyro_buffer_x ++ [c1 - s.gyro_offset_x])
          gyro_buffer_y :=
            trimFront imu_buffer_size
              (s.gyro_buffer_y ++ [c2 - s.gyro_offset_y]) }) := by
  have hsx : (trimFront imu_buffer_size
      (s.gyro_buffer_x ++ [c1 - s.gyro_offset_x])).sum = 0 := by
    apply List.sum_eq_zero
    intro x hx
    rcases List.mem_append.1 (List.drop_subset _ _ hx) with h | h
    · exact hbx x h
    · rw [List.mem_singleton.1 h, hox]; ring
  have hsy : (trimFront imu_buffer_size
      (s.gyro_buffer_y ++ [c2 - s.gyro_offset_y])).sum = 0 := by
    apply List.sum_eq_zero
    intro x hx
    rcases List.mem_append.1 (List.drop_subset _ _ hx) with h | h
    · exact hby x h
    · rw [List.mem_singleton.1 h, hoy]; ring
  simp only [calculate_airmouse_delta, hcal, Bool.false_eq_true, if_false,
    hsx, hsy, zero_div]
  norm_num

lemma runImu_steady (sens c1 c2 c3 : ℚ) :
    ∀ (m : ℕ) (s : ImuState), s.is_calibrating = false →
      s.gyro_offset_x = c1 → s.gyro_offset_y = c2 →
      (∀ x ∈ s.gyro_buffer_x, x = 0) → (∀ x ∈ s.gyro_buffer_y, x = 0) →
      (runImu sens (List.replicate m (c1, c2, c3)) s).1 =
        List.replicate m none := by
  intro m
  induction m with
  | zero => intros; rfl
  | succ k ih =>
    intro s hcal hox hoy hbx hby
    have hstep := airmouse_steady_step sens c1 c2 c3 s hcal hox hoy hbx hby
    have hmemx : ∀ x ∈ trimFront imu_buffer_size
        (s.gyro_buffer_x ++ [c1 - s.gyro_offset_x]), x = 0 := by
      intro x hx
      rcases List.mem_append.1 (List.drop_subset _ _ hx) with h | h
      · exact hbx x h
      · rw [List.mem_singleton.1 h, hox]; ring
    have hmemy : ∀ x ∈ trimFront imu_buffer_size
        (s.gyro_buffer_y ++ [c2 - s.gyro_offset_y]), x = 0 := by
      intro x hx
      rcases List.mem_append.1 (List.drop_subset _ _ hx) with h | h
      · exact hby x h
      · rw [List.mem_singleton.1 h, hoy]; ring
    simp only [List.replicate_succ, runImu, hstep]
    have ih' := ih
      { s with
        gyro_buffer_x :=
          trimFront imu_buffer_size (s.gyro_buffer_x ++ [c1 - s.gyro_offset_x])
        gyro_buffer_y :=
          trimFront imu_buffer_size (s.gyro_buffer_y ++ [c2 - s.gyro_offset_y]) }
      hcal hox hoy hmemx hmemy
    rw [ih']

/-- Claim C6: starting a calibration run and feeding exactly the 50-sample
target with a constant gyroscope triple produces no motion on every
calibration sample, sets the bias offsets to exactly that constant (per-axis
arithmetic mean), clears the accumulator and returns the state to Idle; every
subsequent steady-state sample at the same constant then also yields no
motion. -/
theorem C6_imu_calibration (c1 c2 c3 sens : ℚ) (m : ℕ) :
    (runImu sens (List.replicate 50 (c1, c2, c3))
        (start_calibration ImuState.initial)).1 = List.replicate 50 none ∧
    (runImu sens (List.replicate 50 (c1, c2, c3))
        (start_calibration ImuState.initial)).2 =
      { gyro_offset_x := c1, gyro_offset_y := c2, gyro_offset_z := c3,
        gyro_buffer_x := [], gyro_buffer_y := [],
        calibration_samples := [], is_calibrating := false } ∧
    (runImu sens (List.replicate m (c1, c2, c3))
        (runImu sens (List.replicate 50 (c1, c2, c3))
          (start_calibration ImuState.initial)).2).1 =
      List.replicate m none := by
  have hrun := runImu_calibrating sens (c1, c2, c3) 50 0
    (start_calibration ImuState.initial) (by norm_num) (by norm_num) rfl rfl
  have hfinal : (runImu sens (List.replicate 50 (c1, c2, c3))
      (start_calibration ImuState.initial)).2 =
      { gyro_offset_x := c1, gyro_offset_y := c2, gyro_offset_z := c3,
        gyro_buffer_x := [], gyro_buffer_y := [],
        calibration_samples := [], is_calibrating := false } := by
    rw [hrun.2, finish_calibration_replicate]
    rfl
  refine ⟨hrun.1, hfinal, ?_⟩
  rw [hfinal]
  exact runImu_steady sens c1 c2 c3 m _ rfl rfl rfl (by simp) (by simp)

lemma get_recognition_threshold_eq (s : ℝ) :
    get_recognition_threshold s = 0.2 * 2 / max s 0.1 := by
  unfold get_recognition_threshold min_gesture_distance
  rw [div_div_eq_mul_div]

lemma threshold_strict_anti {s1 s2 : ℝ} (h2 : 0.1 ≤ s2) (h12 : s2 < s1) :
    get_recognition_threshold s1 < get_recognition_threshold s2 := by
  rw [get_recognition_threshold_eq, get_recognition_threshold_eq,
    max_eq_left (h2.trans h12.le), max_eq_left h2]
  exact div_lt_div_of_pos_left (by norm_num)
    (lt_of_lt_of_le (by norm_num) h2) h12

lemma calcdir_below_threshold (sens : ℝ) (a b : ℝ × ℝ)
    (h : Real.sqrt ((b.1 - a.1) * (b.1 - a.1) + (b.2 - a.2) * (b.2 - a.2)) <
      get_recognition_threshold sens) :
    calculate_direction sens a b = GestureDirection.noDir := by
  simp only [calculate_direction]
  rw [if_pos h]

lemma end_gesture_short (sens : ℝ) (s : GestureState)
    (h : s.points.length < 2) : (end_gesture sens s).1 = none := by
  simp only [end_gesture, if_neg (not_le.2 h)]
  simp

lemma end_gesture_classifies (sens : ℝ) (s : GestureState)
    (p e : TouchpadPoint) (hlen : 2 ≤ s.points.length)
    (hstart : s.start_point = some p) (hlast : s.points.getLast? = some e) :
    (end_gesture sens s).1 =
      (if calculate_direction sens (p.x, p.y) (e.x, e.y) =
          GestureDirection.noDir then none
       else some (calculate_direction sens (p.x, p.y) (e.x, e.y))) := by
  simp only [end_gesture, if_pos hlen, hstart, hlast]
  by_cases hd : calculate_direction sens (p.x, p.y) (e.x, e.y) =
      GestureDirection.noDir
  · simp [hd]
  · simp [hd]

lemma classifyDegrees_spec (d : ℝ) :
    (0 ≤ d → d < 30 → classifyDegrees d = GestureDirection.right) ∧
    (330 < d → classifyDegrees d = GestureDirection.right) ∧
    (60 < d → d < 120 → classifyDegrees d = GestureDirection.down) ∧
    (150 < d → d < 210 → classifyDegrees d = GestureDirection.left) ∧
    (240 < d → d < 300 → classifyDegrees d = GestureDirection.up) ∧
    ((30 < d ∧ d < 60) ∨ (120 < d ∧ d < 150) ∨ (210 < d ∧ d < 240) ∨
      (300 < d ∧ d < 330) → classifyDegrees d = GestureDirection.noDir) := by
  simp only [classifyDegrees]
  refine ⟨fun h0 h30 => ?_, fun h330 => ?_, fun ha hb => ?_,
    fun ha hb => ?_, fun ha hb => ?_, fun hgap => ?_⟩
  · rw [if_pos (Or.inr h30)]
  · rw [if_pos (Or.inl (by linarith))]
  · rw [if_neg (by push_neg; exact ⟨by linarith, by linarith⟩),
      if_pos ⟨by linarith, by linarith⟩]
  · rw [if_neg (by push_neg; exact ⟨by linarith, by linarith⟩),
      if_neg (by push_neg; intro h; linarith),
      if_pos ⟨by linarith, by linarith⟩]
  · rw [if_neg (by push_neg; exact ⟨by linarith, by linarith⟩),
      if_neg (by push_neg; intro h; linarith),
      if_neg (by push_neg; intro h; linarith),
      if_pos ⟨by linarith, by linarith⟩]
  · rcases hgap with ⟨ha, hb⟩ | ⟨ha, hb⟩ | ⟨ha, hb⟩ | ⟨ha, hb⟩ <;>
      rw [if_neg (by push_neg; exact ⟨by linarith, by linarith⟩),
        if_neg (by push_neg; intro h; linarith),
        if_neg (by push_neg; intro h; linarith),
        if_neg (by push_neg; intro h; linarith)]

lemma one_le_sqrt_two : (1 : ℝ) ≤ Real.sqrt 2 := by
  rw [show (1 : ℝ) = Real.sqrt 1 from Real.sqrt_one.symm]
  exact Real.sqrt_le_sqrt (by norm_num)

lemma atan2_zero_one : atan2 0 1 = 0 := by
  unfold atan2
  rw [if_pos (by norm_num : (0 : ℝ) < 1)]
  norm_num [Real.arctan_zero]

lemma atan2_one_one : atan2 1 1 = Real.pi / 4 := by
  unfold atan2
  rw [if_pos (by norm_num : (0 : ℝ) < 1)]
  norm_num [Real.arctan_one]

lemma atan2_one_zero : atan2 1 0 = Real.pi / 2 := by
  unfold atan2
  rw [if_neg (by norm_num), if_neg (by norm_num),
    if_pos (by norm_num : (0 : ℝ) < 1)]

lemma atan2_zero_negone : atan2 0 (-1) = Real.pi := by
  unfold atan2
  rw [if_neg (by norm_num), if_pos (by norm_num : (-1 : ℝ) < 0),
    if_pos (by norm_num : (0 : ℝ) ≤ 0)]
  norm_num [Real.arctan_zero]

lemma atan2_one_negone : atan2 1 (-1) = -(Real.pi / 4) + Real.pi := by
  unfold atan2
  rw [if_neg (by norm_num), if_pos (by norm_num : (-1 : ℝ) < 0),
    if_pos (by norm_num : (0 : ℝ) ≤ 1)]
  norm_num [Real.arctan_neg, Real.arctan_one]

lemma atan2_negone_negone : atan2 (-1) (-1) = Real.pi / 4 - Real.pi := by
  unfold atan2
  rw [if_neg (by norm_num), if_pos (by norm_num : (-1 : ℝ) < 0),
    if_neg (by norm_num : ¬(0 : ℝ) ≤ -1)]
  norm_num [Real.arctan_one]

lemma atan2_negone_zero : atan2 (-1) 0 = -(Real.pi / 2) := by
  unfold atan2
  rw [if_neg (by norm_num), if_neg (by norm_num), if_neg (by norm_num),
    if_pos (by norm_num : (-1 : ℝ) < 0)]

lemma atan2_negone_one : atan2 (-1) 1 = -(Real.pi / 4) := by
  unfold atan2
  rw [if_pos (by norm_num : (0 : ℝ) < 1)]
  norm_num [Real.arctan_neg, Real.arctan_one]

lemma deg45 : Real.pi / 4 * 180 / Real.pi = 45 := by
  rw [div_eq_iff Real.pi_ne_zero]; ring

lemma deg90 : Real.pi / 2 * 180 / Real.pi = 90 := by
  rw [div_eq_iff Real.pi_ne_zero]; ring

lemma deg180 : Real.pi * 180 / Real.pi = 180 := by
  rw [div_eq_iff Real.pi_ne_zero]; ring

lemma deg135 : (-(Real.pi / 4) + Real.pi) * 180 / Real.pi = 135 := by
  rw [div_eq_iff Real.pi_ne_zero]; ring

lemma deg_neg135 : (Real.pi / 4 - Real.pi) * 180 / Real.pi = -135 := by
  rw [div_eq_iff Real.pi_ne_zero]; ring

lemma deg_neg90 : -(Real.pi / 2) * 180 / Real.pi = -90 := by
  rw [div_eq_iff Real.pi_ne_zero]; ring

lemma deg_neg45 : -(Real.pi / 4) * 180 / Real.pi = -45 := by
  rw [div_eq_iff Real.pi_ne_zero]; ring

lemma calcdir_of_angle (sens : ℝ) (a b : ℝ × ℝ) (dsq deg : ℝ)
    (dir : GestureDirection)
    (harg : (b.1 - a.1) * (b.1 - a.1) + (b.2 - a.2) * (b.2 - a.2) = dsq)
    (hnd : ¬(Real.sqrt dsq < get_recognition_threshold sens))
    (hdeg : (if atan2 (b.2 - a.2) (b.1 - a.1) * 180 / Real.pi < 0
        then atan2 (b.2 - a.2) (b.1 - a.1) * 180 / Real.pi + 360
        else atan2 (b.2 - a.2) (b.1 - a.1) * 180 / Real.pi) = deg)
    (hcls : classifyDegrees deg = dir) :
    calculate_direction sens a b = dir := by
  simp only [calculate_direction, harg, if_neg hnd, hdeg, hcls]

/-- Claim C5: when a stroke ends with at least two buffered points, the
recognizer classifies the planar delta from the recorded start to the last
buffered point; distance below the sensitivity-scaled threshold, or fewer
than two points, yields no gesture; the angle `atan2 dy dx` in degrees
normalized to `[0, 360)` classifies as Right strictly within ±30° of 0°,
Down of 90°, Left of 180°, Up of 270°, and as no gesture strictly inside the
four 30°-wide gaps — in particular at exactly 45°, 135°, 225°, 315°, realized
here by concrete diagonal endpoints. -/
theorem C5_gesture_classification (sens : ℝ) :
    (∀ s : GestureState, s.points.length < 2 → (end_gesture sens s).1 = none) ∧
    (∀ (s : GestureState) (p e : TouchpadPoint), 2 ≤ s.points.length →
      s.start_point = some p → s.points.getLast? = some e →
      (end_gesture sens s).1 =
        (if calculate_direction sens (p.x, p.y) (e.x, e.y) =
            GestureDirection.noDir then none
         else some (calculate_direction sens (p.x, p.y) (e.x, e.y)))) ∧
    (∀ a b : ℝ × ℝ,
      Real.sqrt ((b.1 - a.1) * (b.1 - a.1) + (b.2 - a.2) * (b.2 - a.2)) <
        get_recognition_threshold sens →
      calculate_direction sens a b = GestureDirection.noDir) ∧
    (∀ d : ℝ,
      (0 ≤ d → d < 30 → classifyDegrees d = GestureDirection.right) ∧
      (330 < d → classifyDegrees d = GestureDirection.right) ∧
      (60 < d → d < 120 → classifyDegrees d = GestureDirection.down) ∧
      (150 < d → d < 210 → classifyDegrees d = GestureDirection.left) ∧
      (240 < d → d < 300 → classifyDegrees d = GestureDirection.up) ∧
      ((30 < d ∧ d < 60) ∨ (120 < d ∧ d < 150) ∨ (210 < d ∧ d < 240) ∨
        (300 < d ∧ d < 330) → classifyDegrees d = GestureDirection.noDir)) ∧
    (get_recognition_threshold sens ≤ 1 →
      calculate_direction sens (0, 0) (1, 0) = GestureDirection.right ∧
      calculate_direction sens (0, 0) (0, 1) = GestureDirection.down ∧
      calculate_direction sens (0, 0) (-1, 0) = GestureDirection.left ∧
      calculate_direction sens (0, 0) (0, -1) = GestureDirection.up ∧
      calculate_direction sens (0, 0) (1, 1) = GestureDirection.noDir ∧
      calculate_direction sens (0, 0) (-1, 1) = GestureDirection.noDir ∧
      calculate_direction sens (0, 0) (-1, -1) = GestureDirection.noDir ∧
      calculate_direction sens (0, 0) (1, -1) = GestureDirection.noDir) := by
  refine ⟨end_gesture_short sens,
    fun s p e hl hs hla => end_gesture_classifies sens s p e hl hs hla,
    calcdir_below_threshold sens, classifyDegrees_spec, fun h1 => ?_⟩
  have hnd1 : ¬(Real.sqrt 1 < get_recognition_threshold sens) := by
    rw [Real.sqrt_one]; exact not_lt.2 h1
  have hnd2 : ¬(Real.sqrt 2 < get_recognition_threshold sens) :=
    not_lt.2 (h1.trans one_le_sqrt_two)
  refine ⟨?_, ?_, ?_, ?_, ?_, ?_, ?_, ?_⟩
  · refine calcdir_of_angle sens (0, 0) (1, 0) 1 0 GestureDirection.right
      (by norm_num) hnd1 ?_ ((classifyDegrees_spec 0).1 le_rfl (by norm_num))
    rw [show (1 : ℝ) - 0 = 1 from by norm_num,
      show (0 : ℝ) - 0 = 0 from by norm_num, atan2_zero_one]
    norm_num
  · refine calcdir_of_angle sens (0, 0) (0, 1) 1 90 GestureDirection.down
      (by norm_num) hnd1 ?_
      ((classifyDegrees_spec 90).2.2.1 (by norm_num) (by norm_num))
    rw [show (1 : ℝ) - 0 = 1 from by norm_num,
      show (0 : ℝ) - 0 = 0 from by norm_num, atan2_one_zero, deg90]
    norm_num
  · refine calcdir_of_angle sens (0, 0) (-1, 0) 1 180 GestureDirection.left
      (by norm_num) hnd1 ?_
      ((classifyDegrees_spec 180).2.2.2.1 (by norm_num) (by norm_num))
    rw [show (-1 : ℝ) - 0 = -1 from by norm_num,
      show (0 : ℝ) - 0 = 0 from by norm_num, atan2_zero_negone, deg180]
    norm_num
  · refine calcdir_of_angle sens (0, 0) (0, -1) 1 270 GestureDirection.up
      (by norm_num) hnd1 ?_
      ((classifyDegrees_spec 270).2.2.2.2.1 (by norm_num) (by norm_num))
    rw [show (-1 : ℝ) - 0 = -1 from by norm_num,
      show (0 : ℝ) - 0 = 0 from by norm_num, atan2_negone_zero, deg_neg90]
    norm_num
  · refine calcdir_of_angle sens (0, 0) (1, 1) 2 45 GestureDirection.noDir
      (by norm_num) hnd2 ?_
      ((classifyDegrees_spec 45).2.2.2.2.2
        (Or.inl ⟨by norm_num, by norm_num⟩))
    rw [show (1 : ℝ) - 0 = 1 from by norm_num, atan2_one_one, deg45]
    norm_num
  · refine calcdir_of_angle sens (0, 0) (-1, 1) 2 135 GestureDirection.noDir
      (by norm_num) hnd2 ?_
      ((classifyDegrees_spec 135).2.2.2.2.2
        (Or.inr (Or.inl ⟨by norm_num, by norm_num⟩)))
    rw [show (1 : ℝ) - 0 = 1 from by norm_num,
      show (-1 : ℝ) - 0 = -1 from by norm_num, atan2_one_negone, deg135]
    norm_num
  · refine calcdir_of_angle sens (0, 0) (-1, -1) 2 225 GestureDirection.noDir
      (by norm_num) hnd2 ?_
      ((classifyDegrees_spec 225).2.2.2.2.2
        (Or.inr (Or.inr (Or.inl ⟨by norm_num, by norm_num⟩))))
    rw [show (-1 : ℝ) - 0 = -1 from by norm_num, atan2_negone_negone,
      deg_neg135]
    norm_num
  · refine calcdir_of_angle sens (0, 0) (1, -1) 2 315 GestureDirection.noDir
      (by norm_num) hnd2 ?_
      ((classifyDegrees_spec 315).2.2.2.2.2
        (Or.inr (Or.inr (Or.inr ⟨by norm_num, by norm_num⟩))))
    rw [show (-1 : ℝ) - 0 = -1 from by norm_num,
      show (1 : ℝ) - 0 = 1 from by norm_num, atan2_negone_one, deg_neg45]
    norm_num

/-- Witness for C5 at sensitivity 2 (threshold `0.2 ≤ 1`): a unit-right stroke
classifies Right, the 45° diagonal classifies as no gesture, and an empty
trajectory yields no gesture. -/
theorem C5_gesture_classification_witness :
    calculate_direction 2 (0, 0) (1, 0) = GestureDirection.right ∧
    calculate_direction 2 (0, 0) (1, 1) = GestureDirection.noDir ∧
    (end_gesture 2
      { points := [], start_point := none,
        is_gesture_in_progress := true }).1 = none := by
  have hthr : get_recognition_threshold 2 ≤ 1 := by
    rw [get_recognition_threshold_eq,
      max_eq_left (by norm_num : (0.1 : ℝ) ≤ 2)]
    norm_num
  exact ⟨((C5_gesture_classification 2).2.2.2.2 hthr).1,
    ((C5_gesture_classification 2).2.2.2.2 hthr).2.2.2.2.1,
    (C5_gesture_classification 2).1 _ (by simp)⟩

/-- Claim C9 (amended): the recognition threshold equals
`base_min_distance * reference_unit / max(sensitivity, floor)` — that is,
`base / (max(sensitivity, floor) / reference_unit)` with base 0.2, floor 0.1
and reference unit 2.0 (the spec's left-associated reading
`base / max / unit` is off by the square of the unit) — hence it is strictly
decreasing in sensitivity above the floor, and an end point closer to the
start than the threshold always classifies as no gesture. -/
theorem C9_threshold_scaling :
    (∀ s : ℝ, get_recognition_threshold s = 0.2 * 2 / max s 0.1) ∧
    (∀ s1 s2 : ℝ, 0.1 ≤ s2 → s2 < s1 →
      get_recognition_threshold s1 < get_recognition_threshold s2) ∧
    (∀ (sens : ℝ) (a b : ℝ × ℝ),
      Real.sqrt ((b.1 - a.1) * (b.1 - a.1) + (b.2 - a.2) * (b.2 - a.2)) <
        get_recognition_threshold sens →
      calculate_direction sens a b = GestureDirection.noDir) :=
  ⟨get_recognition_threshold_eq,
   fun _ _ h2 h12 => threshold_strict_anti h2 h12,
   calcdir_below_threshold⟩

/-- Witness for C9: threshold at sensitivity 3 is below the one at 2, and a
stationary end point (distance 0) yields no gesture. -/
theorem C9_threshold_scaling_witness :
    get_recognition_threshold 3 < get_recognition_threshold 2 ∧
    calculate_direction 2 (0, 0) (0, 0) = GestureDirection.noDir := by
  refine ⟨C9_threshold_scaling.2.1 3 2 (by norm_num) (by norm_num),
    C9_threshold_scaling.2.2 2 (0, 0) (0, 0) ?_⟩
  rw [get_recognition_threshold_eq,
    max_eq_left (by norm_num : (0.1 : ℝ) ≤ 2)]
  norm_num [Real.sqrt_zero]

/-- Counterexample to C9 as frozen: at the reference sensitivity 2.0 the
source threshold is `0.2 / (max 2 0.1 / 2) = 0.2`, not the left-associated
`0.2 / max 2 0.1 / 2 = 0.05` the claim's formula denotes. -/
theorem C9_counterexample :
    get_recognition_threshold 2 ≠ 0.2 / max 2 0.1 / 2 := by
  rw [get_recognition_threshold_eq]
  rw [show max (2 : ℝ) 0.1 = 2 from max_eq_left (by norm_num)]
  norm_num

/-- Claim C10 (code bug): the Mouse-mode touchpad-scroll block subtracts the
pointer engine's *normalized* `last_processed_pos` (set only by Touchpad-mode
`calculate_mouse_delta`, hence `none` throughout Mouse mode) from the *raw*
0-315 coordinates. Consequently with no recorded position no scroll is ever
emitted regardless of finger motion, and with a stale normalized position a
motionless touch at the pad center scrolls on every packet. -/
theorem C10_mouse_scroll_broken :
    (∀ x y : ℕ, mouse_scroll x y none true true = (none, none)) ∧
    mouse_scroll 157 157 (some (0, 0)) true true = (some (-1), some 1) := by
  constructor
  · intro x y
    norm_num [mouse_scroll]
  · norm_num [mouse_scroll, abs_of_nonneg]

end GearVR
